import Mathlib

/-!
Shallow embedding of the `rocksdb-experiment` workload generator.

The program exercises interchangeable storage back ends under a
multi-camera frame write/read load.  We embed the logical state of the
three back ends (`filesystem_impl.rs`, `rocksdb_impl.rs`, `sled_impl.rs`),
the dispatching `SupportedDatabase` enum from `main.rs`, the seeding phase
(`seed_db`), the writer task loop (`write_camera_images`), the reader
task's index draw (`read_images`), and the orchestration in `main`.

Modelling conventions:
* payloads are lists of bytes (`Payload := List Nat`);
* each back end's persistent state is a structure: a list of created
  namespaces (directories / column families / trees) plus an association
  list of `(namespace, key, value)` entries with the most recent write
  first, so lookup by `find?` yields the latest write (overwrite
  semantics);
* fallible operations return `Except StorageError`;
* pseudorandomness (`rand::random::<u8>()` and thread-local RNGs) is
  modelled by explicit streams `Nat → Nat`: each call site that creates a
  buffer from repeated RNG draws receives its own stream, exactly as each
  Rust task draws from its own thread-local RNG;
* the unbounded tick loops are modelled by a fuel parameter counting the
  number of ticks executed; timing (tick rate, latency tracking) is not
  part of the functional state.
-/

/-- Image payload bytes, as stored and returned by the back ends. -/
abbrev Payload := List Nat

/-- Error taxonomy of the fallible storage operations (`anyhow` errors in
the source collapse to these cases). -/
inductive StorageError where
  | namespaceFailure
  | writeFailure
  | readFailure
deriving DecidableEq

/-- Key string built by every back end: `format!("{}.jpg", index)` — the
decimal representation of the index followed by `".jpg"`. -/
def imageKey (index : Nat) : String := toString index ++ ".jpg"

/-- Lookup in an association-list store whose most recent write is first:
returns the value of the first entry matching `(camera, key)`. -/
def lookupEntry (entries : List (String × String × Payload)) (camera key : String) :
    Option Payload :=
  (entries.find? fun e => e.1 == camera && e.2.1 == key).map fun e => e.2.2

namespace filesystem_impl

/-- Logical state of `FilesystemStorage` (src/filesystem_impl.rs): the set
of camera directories created under the root, and the files written, keyed
by `(camera directory, file name)`. -/
structure FilesystemStorage where
  dirs : List String
  files : List (String × String × Payload)
deriving DecidableEq

/-- from `FilesystemStorage::add_camera`: `create_dir_all` on
`<root>/<name>` — creates the directory if absent, succeeds silently if it
already exists. -/
def FilesystemStorage.add_camera (s : FilesystemStorage) (name : String) :
    FilesystemStorage :=
  if s.dirs.contains name then s else { s with dirs := name :: s.dirs }

/-- from `FilesystemStorage::write_image`: `std::fs::write` to
`<root>/<camera>/<index>.jpg`; fails if the camera directory does not
exist, otherwise stores the raw payload bytes at that path. -/
def FilesystemStorage.write_image (s : FilesystemStorage) (camera : String) (index : Nat)
    (image : Payload) : Except StorageError FilesystemStorage :=
  if s.dirs.contains camera then
    .ok { s with files := (camera, imageKey index, image) :: s.files }
  else
    .error .writeFailure

/-- from `FilesystemStorage::read_image`: `std::fs::read` of
`<root>/<camera>/<index>.jpg`.  A missing file makes `fs::read` return an
error which the `?` operator propagates, so absence surfaces as
`Err`, not as `Ok(None)` (the `TODO` comment in the source acknowledges
this). -/
def FilesystemStorage.read_image (s : FilesystemStorage) (camera : String) (index : Nat) :
    Except StorageError (Option Payload) :=
  match lookupEntry s.files camera (imageKey index) with
  | some image => .ok (some image)
  | none => .error .readFailure

end filesystem_impl

namespace rocksdb_impl

/-- Logical state of `RocksDB` (src/rocksdb_impl.rs): the column families
created, and the key/value entries written, keyed by
`(column family, key)`. -/
structure RocksDB where
  cfs : List String
  data : List (String × String × Payload)
deriving DecidableEq

/-- from `RocksDB::add_camera`: `create_cf` — creates the column family;
the error returned when it already exists is discarded (`let _ = ...`), so
the state is unchanged in that case and the call never fails. -/
def RocksDB.add_camera (s : RocksDB) (name : String) : RocksDB :=
  if s.cfs.contains name then s else { s with cfs := name :: s.cfs }

/-- from `RocksDB::write_image`: `cf_handle` fails if the column family
does not exist; otherwise `put_cf` stores the raw payload under the key
`format!("{}.jpg", index)` in the camera's column family. -/
def RocksDB.write_image (s : RocksDB) (camera : String) (index : Nat) (image : Payload) :
    Except StorageError RocksDB :=
  if s.cfs.contains camera then
    .ok { s with data := (camera, imageKey index, image) :: s.data }
  else
    .error .namespaceFailure

/-- from `RocksDB::read_image`: `cf_handle` fails if the column family
does not exist; otherwise `get_cf` returns `Ok(Some(bytes))` for a present
key and `Ok(None)` for an absent one (the `.context("Key not found")`
only decorates the error case of `get_cf`, it does not turn `None` into an
error). -/
def RocksDB.read_image (s : RocksDB) (camera : String) (index : Nat) :
    Except StorageError (Option Payload) :=
  if s.cfs.contains camera then
    .ok (lookupEntry s.data camera (imageKey index))
  else
    .error .namespaceFailure

end rocksdb_impl

namespace sled_impl

/-- Logical state of `Sled` (src/sled_impl.rs): the trees opened, and the
key/value entries written, keyed by `(tree, key)`. -/
structure Sled where
  trees : List String
  data : List (String × String × Payload)
deriving DecidableEq

/-- from `Sled::add_camera`: `open_tree` — opens the tree, creating it if
absent; the result is discarded, so the call never fails. -/
def Sled.add_camera (s : Sled) (name : String) : Sled :=
  if s.trees.contains name then s else { s with trees := name :: s.trees }

/-- from `Sled::write_image`: `open_tree` creates the tree on demand, then
`tree.insert` stores the raw payload under `format!("{}.jpg", index)`;
unlike the other back ends this cannot fail for a missing namespace. -/
def Sled.write_image (s : Sled) (camera : String) (index : Nat) (image : Payload) :
    Except StorageError Sled :=
  .ok { trees := if s.trees.contains camera then s.trees else camera :: s.trees,
        data := (camera, imageKey index, image) :: s.data }

/-- from `Sled::read_image`: `open_tree` creates the tree on demand, then
`tree.get` returns `Ok(Some(bytes))` for a present key and `Ok(None)` for
an absent one. -/
def Sled.read_image (s : Sled) (camera : String) (index : Nat) :
    Except StorageError (Option Payload) :=
  .ok (lookupEntry s.data camera (imageKey index))

end sled_impl

/-- the `SupportedDatabase` enum of `main.rs`: the back end selected at
startup (the `Sled` adapter exists in the repository but is not a variant
of the enum). -/
inductive SupportedDatabase where
  | Filesystem (fs : filesystem_impl.FilesystemStorage)
  | RocksDB (rocks : rocksdb_impl.RocksDB)
deriving DecidableEq

/-- dispatch of `FakeStorageImpl::add_camera` for `SupportedDatabase`. -/
def SupportedDatabase.add_camera : SupportedDatabase → String → SupportedDatabase
  | .Filesystem fs, name => .Filesystem (fs.add_camera name)
  | .RocksDB rocks, name => .RocksDB (rocks.add_camera name)

/-- dispatch of `FakeStorageImpl::write_image` for `SupportedDatabase`. -/
def SupportedDatabase.write_image :
    SupportedDatabase → String → Nat → Payload → Except StorageError SupportedDatabase
  | .Filesystem fs, camera, index, image =>
      (fs.write_image camera index image).map .Filesystem
  | .RocksDB rocks, camera, index, image =>
      (rocks.write_image camera index image).map .RocksDB

/-- dispatch of `FakeStorageImpl::read_image` for `SupportedDatabase`. -/
def SupportedDatabase.read_image :
    SupportedDatabase → String → Nat → Except StorageError (Option Payload)
  | .Filesystem fs, camera, index => fs.read_image camera index
  | .RocksDB rocks, camera, index => rocks.read_image camera index

/-- Observer: the bytes currently stored under `(camera, key)` in the back
end's store, if any. -/
def SupportedDatabase.stored : SupportedDatabase → String → String → Option Payload
  | .Filesystem fs, camera, key => lookupEntry fs.files camera key
  | .RocksDB rocks, camera, key => lookupEntry rocks.data camera key

/-- Observer: whether the camera's namespace (directory / column family)
exists in the back end's state. -/
def SupportedDatabase.hasCamera : SupportedDatabase → String → Bool
  | .Filesystem fs, camera => fs.dirs.contains camera
  | .RocksDB rocks, camera => rocks.cfs.contains camera

/-- the synthetic payload buffer of `main.rs`:
`std::iter::repeat_with(rand::random::<u8>).take(140 * 1024).collect()` —
140 KiB of pseudorandom bytes drawn from the calling task's RNG stream.
Both `seed_db` and each `write_camera_images` task build their own buffer
this way from their own stream. -/
def jpegBuffer (rng : Nat → Nat) : Payload :=
  (List.range (140 * 1024)).map rng

/-- the sequence of `(camera, index)` pairs written by the nested loops of
`seed_db`: `for index in 0..images_per_camera { for camera_id in cameras
{ ... } }` — index-major order. -/
def seedWrites (cameras : List String) (imagesPerCamera : Nat) : List (String × Nat) :=
  (List.range imagesPerCamera).flatMap fun index => cameras.map fun c => (c, index)

/-- the body of `seed_db`'s nested loops, linearized over the index-major
write sequence: each write's failure is propagated at once (`?`). -/
def seedLoop (buf : Payload) :
    SupportedDatabase → List (String × Nat) → Except StorageError SupportedDatabase
  | db, [] => .ok db
  | db, ci :: rest =>
      match db.write_image ci.1 ci.2 buf with
      | .error e => .error e
      | .ok db' => seedLoop buf db' rest

/-- from `seed_db` in `main.rs`: builds its own 140 KiB pseudorandom
buffer, writes it at every `(camera, index)` pair in index-major order,
and returns `images_per_camera` on success. -/
def seed_db (db : SupportedDatabase) (cameras : List String) (imagesPerCamera : Nat)
    (rng : Nat → Nat) : Except StorageError (SupportedDatabase × Nat) :=
  match seedLoop (jpegBuffer rng) db (seedWrites cameras imagesPerCamera) with
  | .error e => .error e
  | .ok db' => .ok (db', imagesPerCamera)

/-- the command-line arguments of `args.rs` that affect the workload
logic. -/
structure Arguments where
  seed_db : Bool
  seed_images_per_camera : Nat
  n_cameras : Nat
  n_readers : Nat
  readers_rate : Nat

/-- the camera names built in `main`: `format!("camera{}", idx)` for
`idx` in `0..n_cameras`. -/
def camerasOf (nCameras : Nat) : List String :=
  (List.range nCameras).map fun idx => "camera" ++ toString idx

/-- the sequential start of `main`: register every camera, then either run
`seed_db` (when `--seed-db` is given) or skip it; the returned number is
`writers_start_index`, the baseline passed to every writer task as its
starting cursor and to every reader task as `end_index`.  Note that the
skip branch yields `args.seed_images_per_camera`, not `0`. -/
def mainSetup (db0 : SupportedDatabase) (args : Arguments) (rng : Nat → Nat) :
    Except StorageError (SupportedDatabase × Nat) :=
  let cameras := camerasOf args.n_cameras
  let db := cameras.foldl (fun d c => d.add_camera c) db0
  if args.seed_db then
    seed_db db cameras args.seed_images_per_camera rng
  else
    .ok (db, args.seed_images_per_camera)

/-- the reader task's index draw in `read_images`:
`(start_index..end_index).choose(&mut rand::thread_rng())` — `None` when
the range is empty, otherwise some index of the range selected by the
task's RNG. -/
def chooseIndex (startIndex endIndex : Nat) (rng : Nat → Nat) : Option Nat :=
  if startIndex < endIndex then
    some (startIndex + rng 0 % (endIndex - startIndex))
  else
    none

/-- Outcome of one tick of a reader task's loop body. -/
inductive ReaderTickResult where
  | panicked
  | read (index : Nat) (result : Except StorageError (Option Payload))

/-- one tick of `read_images`: draw an index with `choose(..).unwrap()` —
a `None` draw panics the task before any read is issued — then issue
`read_image` on the drawn index. -/
def readerTick (db : SupportedDatabase) (camera : String) (startIndex endIndex : Nat)
    (rng : Nat → Nat) : ReaderTickResult :=
  match chooseIndex startIndex endIndex rng with
  | none => .panicked
  | some index => .read index (db.read_image camera index)

/-- the tick loop of `write_camera_images`, run for `ticks` ticks with the
task's fixed buffer: each tick writes the buffer at the current cursor
`index` and then increments the cursor by exactly 1; a write failure ends
the task at once (`?` propagation).  Returns the final state and the list
of indices written, in order. -/
def writerTicks (camera : String) (buf : Payload) :
    SupportedDatabase → Nat → Nat → Except StorageError (SupportedDatabase × List Nat)
  | db, _, 0 => .ok (db, [])
  | db, index, ticks + 1 =>
      match db.write_image camera index buf with
      | .error e => .error e
      | .ok db' =>
          match writerTicks camera buf db' (index + 1) ticks with
          | .error e => .error e
          | .ok (db'', rest) => .ok (db'', index :: rest)

/-- from `write_camera_images` in `main.rs`: the task builds its own
140 KiB pseudorandom buffer from its own RNG stream once at task start,
sets its cursor to `start_index`, and runs the tick loop. -/
def write_camera_images (db : SupportedDatabase) (camera : String) (startIndex : Nat)
    (rng : Nat → Nat) (ticks : Nat) : Except StorageError (SupportedDatabase × List Nat) :=
  writerTicks camera (jpegBuffer rng) db startIndex ticks

/-- Events of the orchestration sequence in `main`, in program order. -/
inductive MainEvent where
  | seedWrite (camera : String) (index : Nat)
  | spawnWriter (camera : String)
  | spawnReader (readerId : Nat)

/-- Observer: whether an orchestration event is a seeding write. -/
def MainEvent.isSeedWrite : MainEvent → Bool
  | .seedWrite _ _ => true
  | _ => false

/-- the orchestration order of `main`: the (awaited, blocking) seeding
writes happen first when `--seed-db` is given, and only afterwards are the
writer tasks (one per camera) and the reader tasks spawned. -/
def mainEvents (args : Arguments) : List MainEvent :=
  (if args.seed_db then
    (seedWrites (camerasOf args.n_cameras) args.seed_images_per_camera).map
      fun ci => MainEvent.seedWrite ci.1 ci.2
  else [])
  ++ (camerasOf args.n_cameras).map MainEvent.spawnWriter
  ++ (List.range args.n_readers).map MainEvent.spawnReader

/-!
### Basic lemmas about the store
-/

theorem lookupEntry_cons_self (es : List (String × String × Payload)) (c k : String)
    (p : Payload) : lookupEntry ((c, k, p) :: es) c k = some p := by
  unfold lookupEntry
  rw [List.find?_cons_of_pos _ (by simp)]
  rfl

theorem lookupEntry_cons_same_value (es : List (String × String × Payload))
    (c' k' c k : String) (p : Payload) (h : lookupEntry es c k = some p) :
    lookupEntry ((c', k', p) :: es) c k = some p := by
  unfold lookupEntry at h ⊢
  by_cases hm : ((c' == c) && (k' == k)) = true
  · simp only [List.find?, hm]
    rfl
  · simp only [List.find?, Bool.not_eq_true] at hm ⊢
    simp only [hm]
    exact h

theorem write_ok_stored (db db' : SupportedDatabase) (c : String) (i : Nat) (p : Payload)
    (h : db.write_image c i p = .ok db') : db'.stored c (imageKey i) = some p := by
  cases db with
  | Filesystem fs =>
    simp only [SupportedDatabase.write_image, filesystem_impl.FilesystemStorage.write_image] at h
    split at h
    · simp only [Except.map] at h
      cases h
      simpa [SupportedDatabase.stored] using lookupEntry_cons_self fs.files c (imageKey i) p
    · simp [Except.map] at h
  | RocksDB rocks =>
    simp only [SupportedDatabase.write_image, rocksdb_impl.RocksDB.write_image] at h
    split at h
    · simp only [Except.map] at h
      cases h
      simpa [SupportedDatabase.stored] using lookupEntry_cons_self rocks.data c (imageKey i) p
    · simp [Except.map] at h

theorem write_ok_hasCamera (db db' : SupportedDatabase) (c : String) (i : Nat) (p : Payload)
    (h : db.write_image c i p = .ok db') : db'.hasCamera c = true := by
  cases db with
  | Filesystem fs =>
    simp only [SupportedDatabase.write_image, filesystem_impl.FilesystemStorage.write_image] at h
    split at h
    · simp only [Except.map] at h
      cases h
      simp_all [SupportedDatabase.hasCamera]
    · simp [Except.map] at h
  | RocksDB rocks =>
    simp only [SupportedDatabase.write_image, rocksdb_impl.RocksDB.write_image] at h
    split at h
    · simp only [Except.map] at h
      cases h
      simp_all [SupportedDatabase.hasCamera]
    · simp [Except.map] at h

theorem write_preserves_hasCamera (db db' : SupportedDatabase) (c' : String) (i : Nat)
    (p : Payload) (c : String) (h : db.write_image c' i p = .ok db') :
    db'.hasCamera c = db.hasCamera c := by
  cases db with
  | Filesystem fs =>
    simp only [SupportedDatabase.write_image, filesystem_impl.FilesystemStorage.write_image] at h
    split at h
    · simp only [Except.map] at h
      cases h
      simp [SupportedDatabase.hasCamera]
    · simp [Except.map] at h
  | RocksDB rocks =>
    simp only [SupportedDatabase.write_image, rocksdb_impl.RocksDB.write_image] at h
    split at h
    · simp only [Except.map] at h
      cases h
      simp [SupportedDatabase.hasCamera]
    · simp [Except.map] at h

theorem write_preserves_stored_same_value (db db' : SupportedDatabase) (c' : String) (i : Nat)
    (p : Payload) (c k : String) (h : db.write_image c' i p = .ok db')
    (hs : db.stored c k = some p) : db'.stored c k = some p := by
  cases db with
  | Filesystem fs =>
    simp only [SupportedDatabase.write_image, filesystem_impl.FilesystemStorage.write_image] at h
    split at h
    · simp only [Except.map] at h
      cases h
      simp only [SupportedDatabase.stored] at hs ⊢
      exact lookupEntry_cons_same_value fs.files c' (imageKey i) c k p hs
    · simp [Except.map] at h
  | RocksDB rocks =>
    simp only [SupportedDatabase.write_image, rocksdb_impl.RocksDB.write_image] at h
    split at h
    · simp only [Except.map] at h
      cases h
      simp only [SupportedDatabase.stored] at hs ⊢
      exact lookupEntry_cons_same_value rocks.data c' (imageKey i) c k p hs
    · simp [Except.map] at h

theorem read_image_of_stored (db : SupportedDatabase) (c : String) (i : Nat) (p : Payload)
    (hc : db.hasCamera c = true) (hs : db.stored c (imageKey i) = some p) :
    db.read_image c i = .ok (some p) := by
  cases db with
  | Filesystem fs =>
    simp only [SupportedDatabase.stored] at hs
    simp [SupportedDatabase.read_image, filesystem_impl.FilesystemStorage.read_image, hs]
  | RocksDB rocks =>
    simp only [SupportedDatabase.stored] at hs
    simp only [SupportedDatabase.hasCamera] at hc
    simp only [SupportedDatabase.read_image, rocksdb_impl.RocksDB.read_image, hc, hs, if_true]

/-!
### Lemmas about the seeding loop
-/

theorem seedLoop_preserves (buf : Payload) (L : List (String × Nat)) :
    ∀ (db db' : SupportedDatabase), seedLoop buf db L = .ok db' →
      ∀ c k, (db.stored c k = some buf → db'.stored c k = some buf) ∧
        (db.hasCamera c = true → db'.hasCamera c = true) := by
  induction L with
  | nil =>
    intro db db' h c k
    simp only [seedLoop] at h
    cases h
    exact ⟨id, id⟩
  | cons ci rest ih =>
    intro db db' h c k
    simp only [seedLoop] at h
    split at h
    · exact absurd h (by simp)
    · rename_i db1 hw
      constructor
      · intro hs
        exact ((ih db1 db' h c k).1
          (write_preserves_stored_same_value db db1 ci.1 ci.2 buf c k hw hs))
      · intro hc
        refine (ih db1 db' h c k).2 ?_
        rw [write_preserves_hasCamera db db1 ci.1 ci.2 buf c hw]
        exact hc

theorem seedLoop_covers (buf : Payload) (L : List (String × Nat)) :
    ∀ (db db' : SupportedDatabase), seedLoop buf db L = .ok db' →
      ∀ c i, (c, i) ∈ L →
        db'.stored c (imageKey i) = some buf ∧ db'.hasCamera c = true := by
  induction L with
  | nil =>
    intro db db' _ c i hmem
    exact absurd hmem (by simp)
  | cons ci rest ih =>
    intro db db' h c i hmem
    simp only [seedLoop] at h
    split at h
    · exact absurd h (by simp)
    · rename_i db1 hw
      rcases List.mem_cons.mp hmem with hhead | htail
      · subst hhead
        constructor
        · exact (seedLoop_preserves buf rest db1 db' h c (imageKey i)).1
            (write_ok_stored db db1 c i buf hw)
        · exact (seedLoop_preserves buf rest db1 db' h c (imageKey i)).2
            (write_ok_hasCamera db db1 c i buf hw)
      · exact ih db1 db' h c i htail

theorem mem_seedWrites (cams : List String) (n : Nat) (c : String) (i : Nat) :
    (c, i) ∈ seedWrites cams n ↔ c ∈ cams ∧ i < n := by
  simp only [seedWrites, List.mem_flatMap, List.mem_range, List.mem_map, Prod.mk.injEq]
  constructor
  · rintro ⟨a, ha, c', hc', rfl, rfl⟩
    exact ⟨hc', ha⟩
  · rintro ⟨hc, hi⟩
    exact ⟨i, hi, c, hc, rfl, rfl⟩

theorem seed_db_ok (db db' : SupportedDatabase) (cams : List String) (n m : Nat)
    (rng : Nat → Nat) (h : seed_db db cams n rng = .ok (db', m)) :
    m = n ∧ seedLoop (jpegBuffer rng) db (seedWrites cams n) = .ok db' := by
  unfold seed_db at h
  split at h
  · exact absurd h (by simp)
  · rename_i db1 hl
    cases h
    exact ⟨rfl, hl⟩

theorem seed_db_reads (db db' : SupportedDatabase) (cams : List String) (n m : Nat)
    (rng : Nat → Nat) (h : seed_db db cams n rng = .ok (db', m)) :
    ∀ c ∈ cams, ∀ i < n, db'.read_image c i = .ok (some (jpegBuffer rng)) := by
  intro c hc i hi
  obtain ⟨-, hl⟩ := seed_db_ok db db' cams n m rng h
  obtain ⟨hs, hcam⟩ := seedLoop_covers (jpegBuffer rng) (seedWrites cams n) db db' hl c i
    ((mem_seedWrites cams n c i).mpr ⟨hc, hi⟩)
  exact read_image_of_stored db' c i (jpegBuffer rng) hcam hs

/-!
### Ordering and uniqueness of the seeding write sequence
-/

theorem pairwise_of_total {α : Type} (R : α → α → Prop) (h : ∀ a b, R a b) :
    ∀ l : List α, l.Pairwise R
  | [] => .nil
  | a :: l => .cons (fun b _ => h a b) (pairwise_of_total R h l)

theorem seedWrites_snd_lt (cams : List String) (n : Nat) (a : String × Nat)
    (ha : a ∈ seedWrites cams n) : a.2 < n := by
  obtain ⟨c, i⟩ := a
  exact ((mem_seedWrites cams n c i).mp ha).2

theorem seedWrites_nodup (cams : List String) (n : Nat) (hnd : cams.Nodup) :
    (seedWrites cams n).Nodup := by
  unfold seedWrites
  refine List.nodup_flatMap.mpr ⟨?_, ?_⟩
  · intro i _
    exact hnd.map fun c c' h => congrArg Prod.fst h
  · refine List.Pairwise.imp ?_ (List.pairwise_lt_range n)
    intro i j hij
    intro x hx hx'
    obtain ⟨c, -, rfl⟩ := List.mem_map.mp hx
    obtain ⟨c', -, he⟩ := List.mem_map.mp hx'
    exact absurd (congrArg Prod.snd he).symm (Nat.ne_of_lt hij)

theorem seedWrites_index_major (cams : List String) (n : Nat) :
    List.Pairwise (fun a b : String × Nat => a.2 ≤ b.2) (seedWrites cams n) := by
  induction n with
  | zero => simp [seedWrites]
  | succ m ih =>
    have hsplit : seedWrites cams (m + 1)
        = seedWrites cams m ++ cams.map fun c => (c, m) := by
      unfold seedWrites
      rw [List.range_succ, List.flatMap_append]
      simp
    rw [hsplit]
    refine List.pairwise_append.mpr ⟨ih, ?_, ?_⟩
    · refine List.pairwise_map.mpr ?_
      exact pairwise_of_total _ (fun a b => Nat.le_refl m) cams
    · intro a ha b hb
      obtain ⟨c', -, rfl⟩ := List.mem_map.mp hb
      exact Nat.le_of_lt (seedWrites_snd_lt cams m a ha)

/-!
### Lemmas about the writer task loop
-/

theorem writerTicks_trace (camera : String) (buf : Payload) (ticks : Nat) :
    ∀ (db db' : SupportedDatabase) (start : Nat) (tr : List Nat),
      writerTicks camera buf db start ticks = .ok (db', tr) →
      tr = List.range' start ticks := by
  induction ticks with
  | zero =>
    intro db db' start tr h
    simp only [writerTicks] at h
    cases h
    rfl
  | succ k ih =>
    intro db db' start tr h
    simp only [writerTicks] at h
    split at h
    · exact absurd h (by simp)
    · rename_i db1 hw
      split at h
      · exact absurd h (by simp)
      · rename_i db2 rest hrec
        cases h
        rw [List.range'_succ start k 1]
        exact congrArg (start :: ·) (ih db1 db' (start + 1) rest hrec)

theorem writerTicks_preserves (camera : String) (buf : Payload) (ticks : Nat) :
    ∀ (db db' : SupportedDatabase) (start : Nat) (tr : List Nat),
      writerTicks camera buf db start ticks = .ok (db', tr) →
      ∀ c k, db.stored c k = some buf → db'.stored c k = some buf := by
  induction ticks with
  | zero =>
    intro db db' start tr h c k hs
    simp only [writerTicks] at h
    cases h
    exact hs
  | succ t ih =>
    intro db db' start tr h c k hs
    simp only [writerTicks] at h
    split at h
    · exact absurd h (by simp)
    · rename_i db1 hw
      split at h
      · exact absurd h (by simp)
      · rename_i db2 rest hrec
        cases h
        exact ih db1 db' (start + 1) rest hrec c k
          (write_preserves_stored_same_value db db1 camera start buf c k hw hs)

theorem writerTicks_stored (camera : String) (buf : Payload) (ticks : Nat) :
    ∀ (db db' : SupportedDatabase) (start : Nat) (tr : List Nat),
      writerTicks camera buf db start ticks = .ok (db', tr) →
      ∀ i ∈ tr, db'.stored camera (imageKey i) = some buf := by
  induction ticks with
  | zero =>
    intro db db' start tr h i hi
    simp only [writerTicks] at h
    cases h
    exact absurd hi (by simp)
  | succ t ih =>
    intro db db' start tr h i hi
    simp only [writerTicks] at h
    split at h
    · exact absurd h (by simp)
    · rename_i db1 hw
      split at h
      · exact absurd h (by simp)
      · rename_i db2 rest hrec
        cases h
        rcases List.mem_cons.mp hi with rfl | htail
        · exact writerTicks_preserves camera buf t db1 db' (i + 1) rest hrec camera
            (imageKey i) (write_ok_stored db db1 camera i buf hw)
        · exact ih db1 db' (start + 1) rest hrec i htail

/-!
### Lemmas about the reader's index draw and the orchestration
-/

theorem chooseIndex_some (startIndex endIndex : Nat) (rng : Nat → Nat) (i : Nat)
    (h : chooseIndex startIndex endIndex rng = some i) :
    startIndex ≤ i ∧ i < endIndex := by
  unfold chooseIndex at h
  split at h
  · rename_i hlt
    cases h
    refine ⟨Nat.le_add_right _ _, ?_⟩
    have hmod : rng 0 % (endIndex - startIndex) < endIndex - startIndex :=
      Nat.mod_lt _ (Nat.sub_pos_of_lt hlt)
    omega
  · exact absurd h (by simp)

theorem mainSetup_start (db0 db' : SupportedDatabase) (args : Arguments)
    (rng : Nat → Nat) (start : Nat) (h : mainSetup db0 args rng = .ok (db', start)) :
    start = args.seed_images_per_camera := by
  unfold mainSetup at h
  split at h
  · exact (seed_db_ok _ _ _ _ _ _ h).1
  · cases h
    rfl

theorem mainSetup_seeded_reads (db0 db' : SupportedDatabase) (args : Arguments)
    (rng : Nat → Nat) (start : Nat) (hflag : args.seed_db = true)
    (h : mainSetup db0 args rng = .ok (db', start)) :
    ∀ c ∈ camerasOf args.n_cameras, ∀ i < start,
      db'.read_image c i = .ok (some (jpegBuffer rng)) := by
  unfold mainSetup at h
  rw [if_pos hflag] at h
  intro c hc i hi
  have hstart : start = args.seed_images_per_camera := (seed_db_ok _ _ _ _ _ _ h).1
  exact seed_db_reads _ db' (camerasOf args.n_cameras) args.seed_images_per_camera start rng h
    c hc i (hstart ▸ hi)

theorem mainEvents_seed_first (args : Arguments) :
    List.Pairwise (fun a b : MainEvent => b.isSeedWrite = true → a.isSeedWrite = true)
      (mainEvents args) := by
  unfold mainEvents
  rw [List.append_assoc]
  refine List.pairwise_append.mpr ⟨?_, ?_, ?_⟩
  · split
    · refine List.pairwise_map.mpr ?_
      refine pairwise_of_total _ ?_ _
      intro x y hb
      rfl
    · exact .nil
  · refine List.pairwise_append.mpr ⟨?_, ?_, ?_⟩
    · refine List.pairwise_map.mpr ?_
      refine pairwise_of_total _ ?_ _
      intro x y hb
      simp [MainEvent.isSeedWrite] at hb
    · refine List.pairwise_map.mpr ?_
      refine pairwise_of_total _ ?_ _
      intro x y hb
      simp [MainEvent.isSeedWrite] at hb
    · intro a _ b hb hbseed
      obtain ⟨r, -, rfl⟩ := List.mem_map.mp hb
      simp [MainEvent.isSeedWrite] at hbseed
  · intro a ha b _ _
    split at ha
    · obtain ⟨ci, -, rfl⟩ := List.mem_map.mp ha
      rfl
    · exact absurd ha (by simp)

/-!
### The claims
-/

/-- C1 (code bug): for a camera that is registered but has no written
index, the RocksDB back end returns `Ok(None)` as the contract demands,
and so does the Sled back end, but the filesystem back end returns an
error: `std::fs::read` fails on the missing file and the `?` operator
propagates the failure, despite the source's own TODO comment saying it
should return `Ok(None)`. -/
theorem readFrame_absent_behavior :
    filesystem_impl.FilesystemStorage.read_image
        (filesystem_impl.FilesystemStorage.add_camera ⟨[], []⟩ "camera0") "camera0" 0
      = .error .readFailure ∧
    rocksdb_impl.RocksDB.read_image
        (rocksdb_impl.RocksDB.add_camera ⟨[], []⟩ "camera0") "camera0" 0 = .ok none ∧
    sled_impl.Sled.read_image
        (sled_impl.Sled.add_camera ⟨[], []⟩ "camera0") "camera0" 0 = .ok none :=
  ⟨rfl, rfl, rfl⟩

/-- C8: for every back end, `add_camera` is idempotent: a second
registration of the same name leaves the state exactly as after the
first, and (by the total return type of the embedding, mirroring the
source's discarded results) a repeated call never fails. -/
theorem add_camera_idempotent :
    (∀ (s : filesystem_impl.FilesystemStorage) (name : String),
        (s.add_camera name).add_camera name = s.add_camera name) ∧
    (∀ (s : rocksdb_impl.RocksDB) (name : String),
        (s.add_camera name).add_camera name = s.add_camera name) ∧
    (∀ (s : sled_impl.Sled) (name : String),
        (s.add_camera name).add_camera name = s.add_camera name) := by
  refine ⟨?_, ?_, ?_⟩
  · intro s name
    by_cases h : s.dirs.contains name = true
    · have h1 : s.add_camera name = s := by
        unfold filesystem_impl.FilesystemStorage.add_camera
        rw [if_pos h]
      rw [h1, h1]
    · have h1 : s.add_camera name = { s with dirs := name :: s.dirs } := by
        unfold filesystem_impl.FilesystemStorage.add_camera
        rw [if_neg h]
      rw [h1]
      show filesystem_impl.FilesystemStorage.add_camera _ name = _
      unfold filesystem_impl.FilesystemStorage.add_camera
      rw [if_pos (show (({ s with dirs := name :: s.dirs } :
        filesystem_impl.FilesystemStorage).dirs.contains name) = true by
          simp [List.contains_cons])]
  · intro s name
    by_cases h : s.cfs.contains name = true
    · have h1 : s.add_camera name = s := by
        unfold rocksdb_impl.RocksDB.add_camera
        rw [if_pos h]
      rw [h1, h1]
    · have h1 : s.add_camera name = { s with cfs := name :: s.cfs } := by
        unfold rocksdb_impl.RocksDB.add_camera
        rw [if_neg h]
      rw [h1]
      show rocksdb_impl.RocksDB.add_camera _ name = _
      unfold rocksdb_impl.RocksDB.add_camera
      rw [if_pos (show (({ s with cfs := name :: s.cfs } :
        rocksdb_impl.RocksDB).cfs.contains name) = true by
          simp [List.contains_cons])]
  · intro s name
    by_cases h : s.trees.contains name = true
    · have h1 : s.add_camera name = s := by
        unfold sled_impl.Sled.add_camera
        rw [if_pos h]
      rw [h1, h1]
    · have h1 : s.add_camera name = { s with trees := name :: s.trees } := by
        unfold sled_impl.Sled.add_camera
        rw [if_neg h]
      rw [h1]
      show sled_impl.Sled.add_camera _ name = _
      unfold sled_impl.Sled.add_camera
      rw [if_pos (show (({ s with trees := name :: s.trees } :
        sled_impl.Sled).trees.contains name) = true by
          simp [List.contains_cons])]

/-- C10: when the reader task's index range is empty
(`end_index = start_index`, e.g. a configured seed count of 0), the first
tick's `choose(..)` returns `None` and the `.unwrap()` panics before any
read is performed. -/
theorem reader_empty_range_panics (db : SupportedDatabase) (camera : String)
    (startIndex endIndex : Nat) (rng : Nat → Nat) (h : endIndex = startIndex) :
    readerTick db camera startIndex endIndex rng = .panicked := by
  subst h
  simp [readerTick, chooseIndex]

/-- Witness for C10 at a concrete empty range. -/
theorem reader_empty_range_panics_witness :
    (0 : Nat) = 0 ∧
    readerTick (SupportedDatabase.Filesystem ⟨[], []⟩) "camera0" 0 0 (fun _ => 0)
      = .panicked :=
  ⟨rfl, reader_empty_range_panics (SupportedDatabase.Filesystem ⟨[], []⟩) "camera0" 0 0
    (fun _ => 0) rfl⟩

/-- C3 (counterexample): with the seed flag off and
`seed_images_per_camera = 5`, `main` sets the writer starting cursor to 5,
not to 0 as the claim states (`main.rs` line 58 uses
`args.seed_images_per_camera` in the skip branch). -/
theorem writer_start_cursor_skip_seed_counterexample :
    mainSetup (SupportedDatabase.Filesystem ⟨[], []⟩)
      { seed_db := false, seed_images_per_camera := 5, n_cameras := 1, n_readers := 1,
        readers_rate := 10 } (fun _ => 0)
      = .ok (SupportedDatabase.Filesystem ⟨["camera0"], []⟩, 5) ∧ (5 : Nat) ≠ 0 :=
  ⟨rfl, by decide⟩

/-- C3 (amended): whether or not seeding runs, every writer task's
starting cursor equals the configured `seed_images_per_camera` (with
seeding this is the seeding baseline N; without seeding it is still that
configured value, not 0). -/
theorem writer_start_cursor_eq_configured (db0 db' : SupportedDatabase) (args : Arguments)
    (rng : Nat → Nat) (start : Nat) (h : mainSetup db0 args rng = .ok (db', start)) :
    start = args.seed_images_per_camera :=
  mainSetup_start db0 db' args rng start h

/-- Witness for the amended C3 at a concrete configuration. -/
theorem writer_start_cursor_eq_configured_witness :
    mainSetup (SupportedDatabase.Filesystem ⟨[], []⟩)
      { seed_db := false, seed_images_per_camera := 7, n_cameras := 0, n_readers := 0,
        readers_rate := 1 } (fun _ => 0)
      = .ok (SupportedDatabase.Filesystem ⟨[], []⟩, 7) ∧ (7 : Nat) = 7 :=
  ⟨rfl, writer_start_cursor_eq_configured (SupportedDatabase.Filesystem ⟨[], []⟩)
    (SupportedDatabase.Filesystem ⟨[], []⟩)
    { seed_db := false, seed_images_per_camera := 7, n_cameras := 0, n_readers := 0,
      readers_rate := 1 } (fun _ => 0) 7 rfl⟩

/-- C4 (counterexample): with the seed flag off and
`seed_images_per_camera = 5`, the reader range is `[0, 5)` although no
index was written in this process run: the drawn index 3 lies below the
high watermark but is absent, so a read fails (on the filesystem back
end) instead of hitting a written index. -/
theorem reader_watermark_unwritten_counterexample :
    mainSetup (SupportedDatabase.Filesystem ⟨[], []⟩)
      { seed_db := false, seed_images_per_camera := 5, n_cameras := 1, n_readers := 1,
        readers_rate := 10 } (fun _ => 0)
      = .ok (SupportedDatabase.Filesystem ⟨["camera0"], []⟩, 5) ∧
    chooseIndex 0 5 (fun _ => 3) = some 3 ∧
    SupportedDatabase.stored (SupportedDatabase.Filesystem ⟨["camera0"], []⟩) "camera0"
      (imageKey 3) = none ∧
    SupportedDatabase.read_image (SupportedDatabase.Filesystem ⟨["camera0"], []⟩) "camera0" 3
      = .error .readFailure :=
  ⟨rfl, rfl, rfl, rfl⟩

/-- C4 (amended): provided the seeding phase runs in this process
(`--seed-db` on), every index a reader task can draw lies in
`[0, high)` and has been written during seeding, so the high watermark
never exceeds the highest committed index. -/
theorem reader_watermark_seeded_safe (db0 db' : SupportedDatabase) (args : Arguments)
    (rng rng' : Nat → Nat) (high idx : Nat) (c : String)
    (hflag : args.seed_db = true)
    (hsetup : mainSetup db0 args rng = .ok (db', high))
    (hdraw : chooseIndex 0 high rng' = some idx)
    (hc : c ∈ camerasOf args.n_cameras) :
    idx < high ∧ db'.read_image c idx = .ok (some (jpegBuffer rng)) := by
  have hlt := (chooseIndex_some 0 high rng' idx hdraw).2
  exact ⟨hlt, mainSetup_seeded_reads db0 db' args rng high hflag hsetup c hc idx hlt⟩

/-- Witness for the amended C4 at a concrete seeded configuration. -/
theorem reader_watermark_seeded_safe_witness :
    mainSetup (SupportedDatabase.Filesystem ⟨[], []⟩)
      { seed_db := true, seed_images_per_camera := 2, n_cameras := 1, n_readers := 1,
        readers_rate := 10 } (fun _ => 0)
      = .ok (SupportedDatabase.Filesystem ⟨["camera0"],
          [("camera0", imageKey 1, jpegBuffer fun _ => 0),
           ("camera0", imageKey 0, jpegBuffer fun _ => 0)]⟩, 2) ∧
    chooseIndex 0 2 (fun _ => 1) = some 1 ∧
    (1 < 2 ∧ SupportedDatabase.read_image (SupportedDatabase.Filesystem ⟨["camera0"],
          [("camera0", imageKey 1, jpegBuffer fun _ => 0),
           ("camera0", imageKey 0, jpegBuffer fun _ => 0)]⟩) "camera0" 1
        = .ok (some (jpegBuffer fun _ => 0))) :=
  ⟨rfl, rfl,
    reader_watermark_seeded_safe (SupportedDatabase.Filesystem ⟨[], []⟩)
      (SupportedDatabase.Filesystem ⟨["camera0"],
        [("camera0", imageKey 1, jpegBuffer fun _ => 0),
         ("camera0", imageKey 0, jpegBuffer fun _ => 0)]⟩)
      { seed_db := true, seed_images_per_camera := 2, n_cameras := 1, n_readers := 1,
        readers_rate := 10 } (fun _ => 0) (fun _ => 1) 2 1 "camera0" rfl rfl rfl
      (by decide)⟩

/-- C5: for every back end of the `SupportedDatabase` enum, a successful
`write_image (camera, index, payload)` is visible to a subsequent
`read_image (camera, index)`, which returns exactly that payload; and
after a successful seeding run every camera and every index below the
baseline reads back the seeded buffer. -/
theorem write_then_read_roundtrip :
    (∀ (db db' : SupportedDatabase) (c : String) (i : Nat) (p : Payload),
        db.write_image c i p = .ok db' → db'.read_image c i = .ok (some p)) ∧
    (∀ (db db' : SupportedDatabase) (cams : List String) (n m : Nat) (rng : Nat → Nat),
        seed_db db cams n rng = .ok (db', m) →
        ∀ c ∈ cams, ∀ i < n, db'.read_image c i = .ok (some (jpegBuffer rng))) := by
  constructor
  · intro db db' c i p h
    exact read_image_of_stored db' c i p (write_ok_hasCamera db db' c i p h)
      (write_ok_stored db db' c i p h)
  · intro db db' cams n m rng h
    exact seed_db_reads db db' cams n m rng h

/-- Witness for C5: a concrete write followed by a read returning the
written payload. -/
theorem write_then_read_roundtrip_witness :
    SupportedDatabase.write_image (SupportedDatabase.RocksDB ⟨["camera0"], []⟩) "camera0" 7
      [1, 2, 3] = .ok (SupportedDatabase.RocksDB ⟨["camera0"],
        [("camera0", imageKey 7, [1, 2, 3])]⟩) ∧
    SupportedDatabase.read_image (SupportedDatabase.RocksDB ⟨["camera0"],
        [("camera0", imageKey 7, [1, 2, 3])]⟩) "camera0" 7 = .ok (some [1, 2, 3]) :=
  ⟨rfl, write_then_read_roundtrip.1 (SupportedDatabase.RocksDB ⟨["camera0"], []⟩)
    (SupportedDatabase.RocksDB ⟨["camera0"], [("camera0", imageKey 7, [1, 2, 3])]⟩)
    "camera0" 7 [1, 2, 3] rfl⟩

theorem jpegBuffer_getElem_zero (rng : Nat → Nat) : (jpegBuffer rng)[0]? = some (rng 0) := by
  simp [jpegBuffer]

theorem jpegBuffer_length (rng : Nat → Nat) : (jpegBuffer rng).length = 140 * 1024 := by
  simp [jpegBuffer]

attribute [irreducible] jpegBuffer

/-- C2 (counterexample): the payload buffer is not generated once and
shared: `seed_db` and each `write_camera_images` task each build their own
buffer from their own RNG draws.  Two writer tasks whose RNG streams
differ store different payload bytes for their cameras, refuting "for
every pair of cameras the stored payload bytes are identical". -/
theorem payload_buffer_not_shared_counterexample :
    write_camera_images (SupportedDatabase.RocksDB ⟨["camera0", "camera1"], []⟩) "camera0" 0
        (fun _ => 0) 1
      = .ok (SupportedDatabase.RocksDB ⟨["camera0", "camera1"],
          [("camera0", imageKey 0, jpegBuffer fun _ => 0)]⟩, [0]) ∧
    write_camera_images (SupportedDatabase.RocksDB ⟨["camera0", "camera1"],
          [("camera0", imageKey 0, jpegBuffer fun _ => 0)]⟩) "camera1" 0 (fun _ => 1) 1
      = .ok (SupportedDatabase.RocksDB ⟨["camera0", "camera1"],
          [("camera1", imageKey 0, jpegBuffer fun _ => 1),
           ("camera0", imageKey 0, jpegBuffer fun _ => 0)]⟩, [0]) ∧
    SupportedDatabase.stored (SupportedDatabase.RocksDB ⟨["camera0", "camera1"],
        [("camera1", imageKey 0, jpegBuffer fun _ => 1),
         ("camera0", imageKey 0, jpegBuffer fun _ => 0)]⟩) "camera0" (imageKey 0)
      = some (jpegBuffer fun _ => 0) ∧
    SupportedDatabase.stored (SupportedDatabase.RocksDB ⟨["camera0", "camera1"],
        [("camera1", imageKey 0, jpegBuffer fun _ => 1),
         ("camera0", imageKey 0, jpegBuffer fun _ => 0)]⟩) "camera1" (imageKey 0)
      = some (jpegBuffer fun _ => 1) ∧
    jpegBuffer (fun _ => 0) ≠ jpegBuffer (fun _ => 1) := by
  refine ⟨rfl, rfl, rfl, rfl, ?_⟩
  intro hEq
  have h0 := congrArg (fun l : Payload => l[0]?) hEq
  simp only [jpegBuffer_getElem_zero] at h0
  exact absurd (Option.some.inj h0) (by decide)

/-- C2 (amended): each of the seeder and every writer task generates its
own fixed-size 140 KiB pseudorandom buffer once at task start; all
payloads written by a single task are byte-identical (that task's buffer),
but buffers of different tasks are drawn from independent RNG streams and
need not coincide. -/
theorem payload_buffer_per_task (db db' sdb sdb' : SupportedDatabase) (c : String)
    (cams : List String) (n m start ticks : Nat) (rng rngSeed : Nat → Nat) (tr : List Nat)
    (hw : write_camera_images db c start rng ticks = .ok (db', tr))
    (hs : seed_db sdb cams n rngSeed = .ok (sdb', m)) :
    (jpegBuffer rng).length = 140 * 1024 ∧
    (∀ i ∈ tr, db'.stored c (imageKey i) = some (jpegBuffer rng)) ∧
    (∀ (c' : String) (i : Nat), (c', i) ∈ seedWrites cams n →
        sdb'.stored c' (imageKey i) = some (jpegBuffer rngSeed)) := by
  refine ⟨?_, ?_, ?_⟩
  · exact jpegBuffer_length rng
  · exact writerTicks_stored c (jpegBuffer rng) ticks db db' start tr hw
  · intro c' i hmem
    exact (seedLoop_covers (jpegBuffer rngSeed) (seedWrites cams n) sdb sdb'
      (seed_db_ok sdb sdb' cams n m rngSeed hs).2 c' i hmem).1

/-- Witness for the amended C2: a concrete one-tick writer run and a
concrete one-image seeding run, with the buffer length evaluated. -/
theorem payload_buffer_per_task_witness :
    write_camera_images (SupportedDatabase.RocksDB ⟨["camera0"], []⟩) "camera0" 0
        (fun _ => 0) 1
      = .ok (SupportedDatabase.RocksDB ⟨["camera0"],
          [("camera0", imageKey 0, jpegBuffer fun _ => 0)]⟩, [0]) ∧
    seed_db (SupportedDatabase.RocksDB ⟨["camera0"], []⟩) ["camera0"] 1 (fun _ => 0)
      = .ok (SupportedDatabase.RocksDB ⟨["camera0"],
          [("camera0", imageKey 0, jpegBuffer fun _ => 0)]⟩, 1) ∧
    (jpegBuffer fun _ => 0).length = 140 * 1024 :=
  ⟨rfl, rfl,
    (payload_buffer_per_task (SupportedDatabase.RocksDB ⟨["camera0"], []⟩)
      (SupportedDatabase.RocksDB ⟨["camera0"], [("camera0", imageKey 0, jpegBuffer fun _ => 0)]⟩)
      (SupportedDatabase.RocksDB ⟨["camera0"], []⟩)
      (SupportedDatabase.RocksDB ⟨["camera0"], [("camera0", imageKey 0, jpegBuffer fun _ => 0)]⟩)
      "camera0" ["camera0"] 1 1 0 1 (fun _ => 0) (fun _ => 0) [0] rfl rfl).1⟩

/-- C6: a successful seeding run returns its target count N; its write
sequence `seedWrites` contains exactly the pairs (camera, index) with the
camera registered and the index below N, each exactly once when the camera
list has no duplicates, in index-major order (indices never decrease along
the sequence); and in the orchestration event order all seeding writes
precede every task spawn. -/
theorem seed_db_index_major_order (db db' : SupportedDatabase) (cams : List String)
    (n m : Nat) (rng : Nat → Nat) (args : Arguments)
    (hseed : seed_db db cams n rng = .ok (db', m)) (hnd : cams.Nodup) :
    m = n ∧
    (∀ (c : String) (i : Nat), (c, i) ∈ seedWrites cams n ↔ c ∈ cams ∧ i < n) ∧
    (seedWrites cams n).Nodup ∧
    List.Pairwise (fun a b : String × Nat => a.2 ≤ b.2) (seedWrites cams n) ∧
    List.Pairwise (fun a b : MainEvent => b.isSeedWrite = true → a.isSeedWrite = true)
      (mainEvents args) :=
  ⟨(seed_db_ok db db' cams n m rng hseed).1,
   fun c i => mem_seedWrites cams n c i,
   seedWrites_nodup cams n hnd,
   seedWrites_index_major cams n,
   mainEvents_seed_first args⟩

/-- Witness for C6 at a concrete one-camera, one-image seeding run. -/
theorem seed_db_index_major_order_witness :
    seed_db (SupportedDatabase.RocksDB ⟨["camera0"], []⟩) ["camera0"] 1 (fun _ => 0)
      = .ok (SupportedDatabase.RocksDB ⟨["camera0"],
          [("camera0", imageKey 0, jpegBuffer fun _ => 0)]⟩, 1) ∧
    ["camera0"].Nodup ∧ (1 : Nat) = 1 :=
  ⟨rfl, by simp,
    (seed_db_index_major_order (SupportedDatabase.RocksDB ⟨["camera0"], []⟩)
      (SupportedDatabase.RocksDB ⟨["camera0"], [("camera0", imageKey 0, jpegBuffer fun _ => 0)]⟩)
      ["camera0"] 1 1 (fun _ => 0) ⟨false, 0, 0, 0, 0⟩ rfl (by simp)).1⟩

/-- C7: a writer task that starts at the baseline cursor and completes
`ticks` successful ticks writes exactly the indices
`start, start+1, ..., start+ticks-1` in order: the m-th write is at
`start + m`, consecutive writes differ by exactly 1 (no gaps), and the
sequence is strictly increasing (no duplicates). -/
theorem writer_indices_contiguous (db db' : SupportedDatabase) (c : String)
    (rng : Nat → Nat) (start ticks : Nat) (tr : List Nat)
    (h : write_camera_images db c start rng ticks = .ok (db', tr)) :
    tr = List.range' start ticks ∧
    (∀ m, m < ticks → tr[m]? = some (start + m)) ∧
    List.Chain' (fun a b => b = a + 1) tr ∧
    List.Pairwise (· < ·) tr ∧
    tr.Nodup := by
  have htr : tr = List.range' start ticks :=
    writerTicks_trace c (jpegBuffer rng) ticks db db' start tr h
  subst htr
  have hchain : List.Chain' (fun a b => b = a + 1) (List.range' start ticks) := by
    clear h
    induction ticks generalizing start with
    | zero => simp
    | succ k ih =>
      rw [List.range'_succ start k 1]
      cases k with
      | zero => simp
      | succ k2 =>
        rw [List.range'_succ (start + 1) k2 1]
        exact List.Chain'.cons rfl
          (by rw [← List.range'_succ (start + 1) k2 1]; exact ih (start + 1))
  have hpw : List.Pairwise (· < ·) (List.range' start ticks) := by
    simp [List.pairwise_lt_range']
  refine ⟨rfl, ?_, hchain, hpw, ?_⟩
  · intro m hm
    simp [List.getElem?_range', hm]
  · exact hpw.imp fun hab => Nat.ne_of_lt hab

/-- Witness for C7: a concrete two-tick writer run starting at cursor 5
writes exactly the indices [5, 6]. -/
theorem writer_indices_contiguous_witness :
    write_camera_images (SupportedDatabase.RocksDB ⟨["camera0"], []⟩) "camera0" 5
        (fun _ => 0) 2
      = .ok (SupportedDatabase.RocksDB ⟨["camera0"],
          [("camera0", imageKey 6, jpegBuffer fun _ => 0),
           ("camera0", imageKey 5, jpegBuffer fun _ => 0)]⟩, [5, 6]) ∧
    [5, 6] = List.range' 5 2 :=
  ⟨rfl, (writer_indices_contiguous (SupportedDatabase.RocksDB ⟨["camera0"], []⟩)
    (SupportedDatabase.RocksDB ⟨["camera0"],
      [("camera0", imageKey 6, jpegBuffer fun _ => 0),
       ("camera0", imageKey 5, jpegBuffer fun _ => 0)]⟩)
    "camera0" (fun _ => 0) 5 2 [5, 6] rfl).1⟩

/-- C9: the key layout of every back end: a successful write stores the
raw payload bytes under the camera's namespace with key
`<decimal index>.jpg` (for the filesystem back end this pair is the
relative path `<camera>/<index>.jpg` under the root), touching nothing
else: the namespace set is unchanged and exactly one entry is prepended.
The key is the decimal representation with no zero-padding
(`imageKey i = Nat.repr i ++ ".jpg"`). -/
theorem storage_key_layout :
    (∀ i : Nat, imageKey i = Nat.repr i ++ ".jpg") ∧
    (∀ (s s' : filesystem_impl.FilesystemStorage) (c : String) (i : Nat) (p : Payload),
        s.write_image c i p = .ok s' →
        s'.files = (c, imageKey i, p) :: s.files ∧ s'.dirs = s.dirs) ∧
    (∀ (s s' : rocksdb_impl.RocksDB) (c : String) (i : Nat) (p : Payload),
        s.write_image c i p = .ok s' →
        s'.data = (c, imageKey i, p) :: s.data ∧ s'.cfs = s.cfs) ∧
    (∀ (s s' : sled_impl.Sled) (c : String) (i : Nat) (p : Payload),
        s.write_image c i p = .ok s' → s'.data = (c, imageKey i, p) :: s.data) := by
  refine ⟨fun i => rfl, ?_, ?_, ?_⟩
  · intro s s' c i p h
    unfold filesystem_impl.FilesystemStorage.write_image at h
    split at h
    · cases h
      exact ⟨rfl, rfl⟩
    · exact absurd h (by simp)
  · intro s s' c i p h
    unfold rocksdb_impl.RocksDB.write_image at h
    split at h
    · cases h
      exact ⟨rfl, rfl⟩
    · exact absurd h (by simp)
  · intro s s' c i p h
    unfold sled_impl.Sled.write_image at h
    cases h
    rfl

/-- Witness for C9: a concrete RocksDB write stores its payload under the
key `"3.jpg"` in the camera's column family. -/
theorem storage_key_layout_witness :
    rocksdb_impl.RocksDB.write_image ⟨["camera0"], []⟩ "camera0" 3 [9]
      = .ok ⟨["camera0"], [("camera0", imageKey 3, [9])]⟩ ∧
    imageKey 3 = "3.jpg" ∧
    ((⟨["camera0"], [("camera0", imageKey 3, [9])]⟩ : rocksdb_impl.RocksDB).data
      = ("camera0", imageKey 3, [9]) :: ([] : List (String × String × Payload))) :=
  ⟨rfl, rfl,
    (storage_key_layout.2.2.1 ⟨["camera0"], []⟩ ⟨["camera0"], [("camera0", imageKey 3, [9])]⟩
      "camera0" 3 [9] rfl).1⟩
